import Mathlib

/-!
Verification of the GOP3 Fan Page backend (server/app.py): a shallow
embedding of the request-handling pipeline — rate limiting, attachment
validation, email composition, SMTP dispatch with retry, and the
submission handler — together with theorems about its behaviour.
Timestamps are integer seconds (the source truncates the clock with
`int(time.time())`); the clock, the SMTP transport and the JSON
library are external collaborators and appear as explicit arguments
or as faithful models where noted.
-/

namespace GopServer

/-! ### Configuration constants (server/app.py lines 63-67) -/

/-- 8 MiB per attachment (`MAX_ATTACHMENT_SIZE = 8 * 1024 * 1024`). -/
def MAX_ATTACHMENT_SIZE : Nat := 8 * 1024 * 1024

/-- Allowed attachment extensions (`ALLOWED_ATTACHMENT_EXT`). -/
def ALLOWED_ATTACHMENT_EXT : List String := ["png", "jpg", "jpeg", "gif", "pdf", "txt", "md"]

/-- Rate-limit window in seconds (`RATE_LIMIT_WINDOW = 60`). -/
def RATE_LIMIT_WINDOW : Int := 60

/-- Max submissions per IP per window (`RATE_LIMIT_MAX = 6`). -/
def RATE_LIMIT_MAX : Nat := 6

/-! ### Python string primitives

The source leans on Python string methods (`strip`, `lower`, `rsplit`,
`endswith`, `in`); they are modelled here by structurally recursive
functions over the character list of a `String`. -/

/-- Python `s.strip()`: drop whitespace from both ends. -/
def py_strip (s : String) : String :=
  String.mk (((s.data.dropWhile Char.isWhitespace).reverse.dropWhile
    Char.isWhitespace).reverse)

/-- Python `s.lower()`. -/
def py_lower (s : String) : String :=
  String.mk (s.data.map Char.toLower)

/-- Python `s.endswith(suffix)`. -/
def py_endswith (s suffix : String) : Bool :=
  suffix.data.isSuffixOf s.data

/-- Python `"." in s`. -/
def py_has_dot (s : String) : Bool :=
  s.data.contains '.'

/-- The characters after the last dot: `s.rsplit(".", 1)[1]` when a dot is
present. -/
def afterLastDot (s : String) : String :=
  String.mk ((s.data.reverse.takeWhile (fun c => c != '.')).reverse)

/-! ### Rate limiter (server/app.py lines 89-113, 364-373) -/

/-- One `_rate_store` entry: `{"count": int, "window_start": timestamp}`. -/
structure RateEntry where
  count : Nat
  window_start : Int
deriving DecidableEq, Repr

/-- The `_rate_store` dict, modelled as an association list keyed by IP. -/
abbrev RateStore := List (String × RateEntry)

/-- Dict lookup `_rate_store.get(ip)`. -/
def lookupIp (s : RateStore) (ip : String) : Option RateEntry :=
  match s with
  | [] => none
  | (k, v) :: rest => if k = ip then some v else lookupIp rest ip

/-- Dict assignment `_rate_store[ip] = e` (overwrite or append). -/
def setIp (s : RateStore) (ip : String) (e : RateEntry) : RateStore :=
  match s with
  | [] => [(ip, e)]
  | (k, v) :: rest => if k = ip then (k, e) :: rest else (k, v) :: setIp rest ip e

/-- `is_rate_limited(ip)` (lines 93-113): check and update the limiter for
the given IP at time `now`; returns the limited flag and the updated store.
The in-place `data["count"] += 1` becomes a store update that keeps
`window_start`. -/
def is_rate_limited (store : RateStore) (ip : String) (now : Int) : Bool × RateStore :=
  match lookupIp store ip with
  | none => (false, setIp store ip ⟨1, now⟩)
  | some data =>
    if RATE_LIMIT_WINDOW < now - data.window_start then
      (false, setIp store ip ⟨1, now⟩)
    else if RATE_LIMIT_MAX ≤ data.count then
      (true, store)
    else
      (false, setIp store ip ⟨data.count + 1, data.window_start⟩)

/-- A sequence of rate-limit checks for one IP at the given times, threading
the store; returns the limited flags in order and the final store. -/
def runRequests (store : RateStore) (ip : String) : List Int → List Bool × RateStore
  | [] => ([], store)
  | t :: rest =>
    let step := is_rate_limited store ip t
    let tail := runRequests step.2 ip rest
    (step.1 :: tail.1, tail.2)

/-- One pass of `_cleanup_rate_store` (lines 364-373): delete every entry
whose `window_start` is older than `cutoff = now - 2 * RATE_LIMIT_WINDOW`. -/
def cleanup_rate_store (s : RateStore) (now : Int) : RateStore :=
  s.filter (fun p => decide (¬ (p.2.window_start < now - RATE_LIMIT_WINDOW * 2)))

/-! ### Attachment validation (server/app.py lines 119-124, 287-301) -/

/-- `allowed_filename(filename)` (lines 119-124): requires a dot and an
allow-listed extension; `rsplit(".", 1)[1]` is the text after the last dot. -/
def allowed_filename (filename : String) : Bool :=
  if py_has_dot filename then
    decide (py_lower (afterLastDot filename) ∈ ALLOWED_ATTACHMENT_EXT)
  else
    false

/-- Outcome of the per-file checks in `receive_send_email` (lines 291-299). -/
inductive FileCheck where
  | ok
  | typeNotAllowed
  | tooLarge
deriving DecidableEq, Repr

/-- The per-file validation of `receive_send_email` (lines 291-299):
extension check first, then the size check against `MAX_ATTACHMENT_SIZE`. -/
def check_file (fname : String) (size : Nat) : FileCheck :=
  if allowed_filename fname = false then .typeNotAllowed
  else if MAX_ATTACHMENT_SIZE < size then .tooLarge
  else .ok

/-! ### JSON values and the serializer used for the Meta section -/

/-- A JSON-like structured value, as carried by the `meta` field. -/
inductive Json where
  | null
  | bool (b : Bool)
  | num (n : Int)
  | str (s : String)
  | arr (xs : List Json)
  | obj (kvs : List (String × Json))

/-- Escape a character for a JSON string literal (quote and backslash). -/
def json_escape_char (c : Char) : String :=
  if c = Char.ofNat 34 then String.mk [Char.ofNat 92, Char.ofNat 34]
  else if c = Char.ofNat 92 then String.mk [Char.ofNat 92, Char.ofNat 92]
  else String.mk [c]

/-- Escape a string for a JSON string literal. -/
def json_escape (s : String) : String :=
  String.join (s.toList.map json_escape_char)

/-- `2 * lvl` spaces of indentation. -/
def indentStr (lvl : Nat) : String :=
  String.mk (List.replicate (2 * lvl) ' ')

mutual

/-- Models Python `json.dumps(value, indent=2)` (standard-library external
collaborator, line 226): primitives on one line, containers spread over
indented lines. -/
def json_dumps_val : Json → Nat → String
  | Json.null, _ => "null"
  | Json.bool b, _ => if b then "true" else "false"
  | Json.num n, _ => toString n
  | Json.str s, _ => "\"" ++ json_escape s ++ "\""
  | Json.arr xs, lvl =>
      match xs with
      | [] => "[]"
      | _ => "[\n" ++ json_dumps_items xs (lvl + 1) ++ "\n" ++ indentStr lvl ++ "]"
  | Json.obj kvs, lvl =>
      match kvs with
      | [] => "\x7b\x7d"
      | _ => "\x7b\n" ++ json_dumps_entries kvs (lvl + 1) ++ "\n" ++ indentStr lvl ++ "\x7d"

/-- Renders the comma-and-newline separated elements of a JSON array. -/
def json_dumps_items : List Json → Nat → String
  | [], _ => ""
  | [x], lvl => indentStr lvl ++ json_dumps_val x lvl
  | x :: y :: xs, lvl =>
      indentStr lvl ++ json_dumps_val x lvl ++ ",\n" ++ json_dumps_items (y :: xs) lvl

def json_dumps_entries : List (String × Json) → Nat → String
  | [], _ => ""
  | [(k, x)], lvl => indentStr lvl ++ "\"" ++ json_escape k ++ "\": " ++ json_dumps_val x lvl
  | (k, x) :: y :: xs, lvl =>
      indentStr lvl ++ "\"" ++ json_escape k ++ "\": " ++ json_dumps_val x lvl
        ++ ",\n" ++ json_dumps_entries (y :: xs) lvl

end

/-- `json.dumps(v, indent=2)` as called at line 226. -/
def json_dumps (v : Json) : String := json_dumps_val v 0

/-! ### Email composition (server/app.py lines 193-227) -/

/-- `safe_text(value)` (lines 193-197): empty for a missing or empty value,
otherwise the stripped string. -/
def safe_text : Option String → String
  | none => ""
  | some s => if s = "" then "" else py_strip s

/-- The dict handed to `build_email_body`: each field is `none` when the key
is absent; `meta = some v` means the key `"meta"` is present with value `v`
(Python `None` is `Json.null`). -/
structure EmailData where
  name : Option String
  email : Option String
  subject : Option String
  message : Option String
  meta : Option Json

/-- The `lines` list built by `build_email_body` (lines 200-227), with the
`datetime.utcnow().isoformat()` timestamp passed in as `sentAt`. -/
def build_email_lines (data : EmailData) (sentAt : String) : List String :=
  ["New message from GOP3 Fan Page contact form", "",
   "Sent at: " ++ sentAt ++ "Z", "", "----"]
  ++ (if safe_text data.name = "" then [] else ["Name: " ++ safe_text data.name])
  ++ (if safe_text data.email = "" then [] else ["Email: " ++ safe_text data.email])
  ++ (if safe_text data.subject = "" then [] else ["Subject: " ++ safe_text data.subject])
  ++ ["", "Message:",
      (if safe_text data.message = "" then "(no message)" else safe_text data.message),
      "", "----"]
  ++ (match data.meta with
      | none => []
      | some v => ["Meta:", json_dumps v])

/-- Python `"\n".join(lines)` (line 227). -/
def joinLines : List String → String
  | [] => ""
  | [x] => x
  | x :: y :: xs => x ++ "\n" ++ joinLines (y :: xs)

/-- `build_email_body(data)` (lines 200-227). -/
def build_email_body (data : EmailData) (sentAt : String) : String :=
  joinLines (build_email_lines data sentAt)

/-! ### MIME type inference and the SMTP dispatcher (server/app.py lines 127-190) -/

/-- The six-character literal the source compares against at line 156:
dot, p, n, g, ASCII 39 (a stray quote), closing parenthesis — the result
of a typo, so no filename ending in `.png` ever matches it. -/
def png_bug_suffix : String := String.mk ['.', 'p', 'n', 'g', Char.ofNat 39, ')']

/-- The maintype/subtype guess for an attachment (lines 151-162), exactly as
the source computes it, including the `png_bug_suffix` comparison. -/
def mime_for (fname : String) : String × String :=
  let l := py_lower fname
  if py_endswith l ".png" || py_endswith l ".jpg" || py_endswith l ".jpeg" || py_endswith l ".gif" then
    ("image",
      if py_endswith l png_bug_suffix then "png"
      else if py_endswith l ".jpg" || py_endswith l ".jpeg" then "jpeg"
      else "gif")
  else if py_endswith l ".pdf" then ("application", "pdf")
  else if py_endswith l ".txt" then ("text", "plain")
  else ("application", "octet-stream")

/-- Result of `send_email`: normal return, or the final
`RuntimeError(...) from last_exc` whose cause is the last attempt error. -/
inductive SendResult where
  | ok
  | failed (cause : Option String)
deriving DecidableEq, Repr

/-- Observable trace of one `send_email` call: the result, the
`time.sleep` durations in seconds in order, the number of attempts made,
and the number of completed SMTP transmissions. -/
structure SendOutcome where
  result : SendResult
  sleeps : List Nat
  attempts : Nat
  sends : Nat
deriving DecidableEq, Repr

/-- The `while attempts < max_attempts` loop of `send_email`
(lines 135-190). `f a` is the outcome of attempt number `a` against the
external SMTP collaborator (connect, STARTTLS, login, send): `ok` when the
message went out, `error e` when any step raised `e`. On failure the code
sleeps `1.0 * 2 ** (attempts - 1)` seconds and retries; `remaining` is
`max_attempts - attempts`. -/
def send_email_loop (f : Nat → Except String Unit) :
    Nat → Nat → Option String → List Nat → SendOutcome
  | 0, attempts, last_exc, sleeps => ⟨.failed last_exc, sleeps, attempts, 0⟩
  | remaining + 1, attempts, _, sleeps =>
    match f (attempts + 1) with
    | .ok _ => ⟨.ok, sleeps, attempts + 1, 1⟩
    | .error e => send_email_loop f remaining (attempts + 1) (some e) (sleeps ++ [2 ^ attempts])

/-- `send_email(...)` (lines 127-190), abstracted over the per-attempt SMTP
outcome `f`; `max_attempts` defaults to 3 at the call site. -/
def send_email (f : Nat → Except String Unit) (max_attempts : Nat) : SendOutcome :=
  send_email_loop f max_attempts 0 none []

/-! ### The /send-email handler (server/app.py lines 243-329) -/

/-- The parsed payload dict: each field `none` when the key is absent.
For a form body, `meta` holds the result of `json.loads` on the `meta`
field (or `Json.str` of the raw text when parsing fails, line 284);
`none` also covers the falsy empty field (line 280). -/
structure Payload where
  name : Option String
  email : Option String
  subject : Option String
  message : Option String
  meta : Option Json

/-- One entry of `request.files`, with the `secure_filename`-sanitized name
(werkzeug external collaborator) and the raw bytes; the source's
seek/tell size equals the byte count. -/
structure FileUpload where
  filename : String
  content : List Nat

/-- The request body: a JSON body (`none` = unparsable or empty JSON,
lines 264-271) or a form body with its fields and uploaded files. -/
inductive ReqBody where
  | jsonBody (p : Option Payload)
  | formBody (name email subject message : Option String)
      (meta : Option Json) (files : List FileUpload)

/-- The handler's terminal responses (status codes in the source:
ok 200, tooMany 429, invalidJson 400, attachment rejections 400,
missingFields 422, sendFailed 500). -/
inductive Response where
  | ok
  | tooMany
  | invalidJson
  | attachDisallowed (fname : String)
  | attachTooLarge (fname : String)
  | missingFields
  | sendFailed
deriving DecidableEq, Repr

/-- The attachment loop of lines 287-302: skip entries with an empty
filename, reject on the first failed check, otherwise collect
`attachments[fname] = content` in order. -/
def process_files : List FileUpload → Except Response (List (String × List Nat))
  | [] => .ok []
  | f :: rest =>
    if f.filename = "" then process_files rest
    else
      match check_file f.filename f.content.length with
      | .typeNotAllowed => .error (.attachDisallowed f.filename)
      | .tooLarge => .error (.attachTooLarge f.filename)
      | .ok =>
        match process_files rest with
        | .error r => .error r
        | .ok atts => .ok ((f.filename, f.content) :: atts)

/-- The parse phase of `receive_send_email` (lines 259-302): a JSON body
yields its payload (or the 400 for invalid JSON) with no attachments; a
form body yields the field payload and the validated attachments. -/
def parse_request : ReqBody → Except Response (Payload × List (String × List Nat))
  | .jsonBody none => .error .invalidJson
  | .jsonBody (some p) => .ok (p, [])
  | .formBody name email subject message meta files =>
    match process_files files with
    | .error r => .error r
    | .ok atts => .ok (⟨name, email, subject, message, meta⟩, atts)

/-- Line 307's `payload.get("subject") or "GOP3 Fan Message"`: the default
replaces a missing key or an empty (falsy) string, before `safe_text`. -/
def subject_or_default : Option String → String
  | none => "GOP3 Fan Message"
  | some v => if v = "" then "GOP3 Fan Message" else v

/-- The normalized subject of line 307:
`safe_text(payload.get("subject") or "GOP3 Fan Message")`. -/
def handler_subject (s : Option String) : String :=
  safe_text (some (subject_or_default s))

/-- The dict literal of lines 314-320 handed to `build_email_body`: every
key is present; `"meta"` carries `payload.get("meta")`, which is Python
`None` (`Json.null`) when the payload had no meta. -/
def handler_email_data (name email subject message : String) (meta : Option Json) : EmailData :=
  { name := some name, email := some email, subject := some subject,
    message := some message, meta := some (meta.getD Json.null) }

/-- What was handed to `send_email` when dispatch was reached. -/
structure DispatchRecord where
  subject : String
  body : String
  replyTo : String
  attachments : List (String × List Nat)

/-- Result of one handler run: the response, the rate store afterwards, and
the dispatch record (`none` exactly when `send_email` was never invoked). -/
structure HandlerResult where
  response : Response
  store : RateStore
  dispatched : Option DispatchRecord

/-- `receive_send_email` (lines 243-329): rate limit, parse, validate,
compose, dispatch. `now` is the integer clock, `sentAt` the composition
timestamp, and `f` the per-attempt SMTP outcome for `send_email`. -/
def receive_send_email (store : RateStore) (ip : String) (now : Int)
    (body : ReqBody) (sentAt : String) (f : Nat → Except String Unit) : HandlerResult :=
  let rl := is_rate_limited store ip now
  if rl.1 then { response := .tooMany, store := rl.2, dispatched := none }
  else
    match parse_request body with
    | .error r => { response := r, store := rl.2, dispatched := none }
    | .ok (payload, atts) =>
      let name := safe_text payload.name
      let email := safe_text payload.email
      let subject := handler_subject payload.subject
      let message := safe_text payload.message
      if name = "" ∨ email = "" ∨ message = "" then
        { response := .missingFields, store := rl.2, dispatched := none }
      else
        let bodyText := build_email_body (handler_email_data name email subject message payload.meta) sentAt
        let record : DispatchRecord :=
          { subject := "[GOP3 Fan] " ++ subject ++ " (from " ++ name ++ ")",
            body := bodyText, replyTo := email, attachments := atts }
        match (send_email f 3).result with
        | .ok => { response := .ok, store := rl.2, dispatched := some record }
        | .failed _ => { response := .sendFailed, store := rl.2, dispatched := some record }

/-- Invariant of the rate store: every entry's count is between 1 and
`RATE_LIMIT_MAX` (and, by construction of `RateEntry`, carries a
`window_start` timestamp). -/
def RateInv (s : RateStore) : Prop :=
  ∀ p ∈ s, 1 ≤ p.2.count ∧ p.2.count ≤ RATE_LIMIT_MAX

/-! ### Helper lemmas: the rate store -/

lemma lookupIp_setIp_self (s : RateStore) (ip : String) (e : RateEntry) :
    lookupIp (setIp s ip e) ip = some e := by
  induction s with
  | nil => simp [setIp, lookupIp]
  | cons p rest ih =>
    obtain ⟨k, v⟩ := p
    by_cases h : k = ip
    · simp [setIp, lookupIp, h]
    · simp [setIp, lookupIp, h, ih]

lemma mem_setIp (s : RateStore) (ip : String) (e : RateEntry) :
    ∀ q ∈ setIp s ip e, q ∈ s ∨ q.2 = e := by
  induction s with
  | nil =>
    intro q hq
    simp [setIp] at hq
    simp [hq]
  | cons p rest ih =>
    obtain ⟨k, v⟩ := p
    intro q hq
    by_cases h : k = ip
    · simp [setIp, h] at hq
      rcases hq with h1 | h2
      · right; simp [h1]
      · left; exact List.mem_cons_of_mem _ h2
    · simp [setIp, h] at hq
      rcases hq with h1 | h2
      · left; simp [h1]
      · rcases ih q h2 with h3 | h4
        · left; exact List.mem_cons_of_mem _ h3
        · right; exact h4

lemma is_rate_limited_absent (store : RateStore) (ip : String) (now : Int)
    (h : lookupIp store ip = none) :
    is_rate_limited store ip now = (false, setIp store ip ⟨1, now⟩) := by
  simp [is_rate_limited, h]

lemma is_rate_limited_expired (store : RateStore) (ip : String) (now : Int) (e : RateEntry)
    (h : lookupIp store ip = some e) (hw : RATE_LIMIT_WINDOW < now - e.window_start) :
    is_rate_limited store ip now = (false, setIp store ip ⟨1, now⟩) := by
  simp [is_rate_limited, h, hw]

lemma is_rate_limited_at_limit (store : RateStore) (ip : String) (now : Int) (e : RateEntry)
    (h : lookupIp store ip = some e) (hw : ¬ RATE_LIMIT_WINDOW < now - e.window_start)
    (hc : RATE_LIMIT_MAX ≤ e.count) :
    is_rate_limited store ip now = (true, store) := by
  simp [is_rate_limited, h, hw, hc]

lemma is_rate_limited_incr (store : RateStore) (ip : String) (now : Int) (e : RateEntry)
    (h : lookupIp store ip = some e) (hw : ¬ RATE_LIMIT_WINDOW < now - e.window_start)
    (hc : e.count < RATE_LIMIT_MAX) :
    is_rate_limited store ip now = (false, setIp store ip ⟨e.count + 1, e.window_start⟩) := by
  simp [is_rate_limited, h, hw, Nat.not_le.mpr hc]

lemma runRequests_active (ip : String) (t₀ : Int) (times : List Int) :
    ∀ (store : RateStore) (c : Nat),
      lookupIp store ip = some ⟨c, t₀⟩ → c ≤ RATE_LIMIT_MAX →
      (∀ t ∈ times, t - t₀ ≤ RATE_LIMIT_WINDOW) →
      (∀ j, j < times.length →
          (runRequests store ip times).1[j]? = some (decide (RATE_LIMIT_MAX ≤ c + j)))
      ∧ lookupIp (runRequests store ip times).2 ip
          = some ⟨min (c + times.length) RATE_LIMIT_MAX, t₀⟩ := by
  induction times with
  | nil =>
    intro store c hl hc _
    refine ⟨fun j hj => absurd hj (by simp), ?_⟩
    simpa [runRequests, Nat.min_eq_left hc] using hl
  | cons t rest ih =>
    intro store c hl hc hin
    have hwin : ¬ RATE_LIMIT_WINDOW < t - t₀ := not_lt.mpr (hin t (by simp))
    by_cases hmax : RATE_LIMIT_MAX ≤ c
    · have hstep : is_rate_limited store ip t = (true, store) :=
        is_rate_limited_at_limit store ip t ⟨c, t₀⟩ hl hwin hmax
      have ihh := ih store c hl hc (fun u hu => hin u (List.mem_cons_of_mem _ hu))
      refine ⟨fun j hj => ?_, ?_⟩
      · cases j with
        | zero =>
          simp only [runRequests, hstep, List.getElem?_cons_zero]
          rw [decide_eq_true (by omega : RATE_LIMIT_MAX ≤ c + 0)]
        | succ j' =>
          simp only [runRequests, hstep, List.getElem?_cons_succ]
          rw [ihh.1 j' (by simpa using Nat.lt_of_succ_lt_succ hj)]
          rw [decide_eq_true (by omega : RATE_LIMIT_MAX ≤ c + j'),
              decide_eq_true (by omega : RATE_LIMIT_MAX ≤ c + (j' + 1))]
      · simp only [runRequests, hstep]
        rw [ihh.2]
        have : min (c + rest.length) RATE_LIMIT_MAX
            = min (c + (t :: rest).length) RATE_LIMIT_MAX := by
          simp only [List.length_cons]; omega
        rw [this]
    · have hstep : is_rate_limited store ip t
          = (false, setIp store ip ⟨c + 1, t₀⟩) :=
        is_rate_limited_incr store ip t ⟨c, t₀⟩ hl hwin (Nat.lt_of_not_le hmax)
      have hl1 : lookupIp (setIp store ip ⟨c + 1, t₀⟩) ip = some ⟨c + 1, t₀⟩ :=
        lookupIp_setIp_self store ip _
      have ihh := ih (setIp store ip ⟨c + 1, t₀⟩) (c + 1) hl1 (by omega)
          (fun u hu => hin u (List.mem_cons_of_mem _ hu))
      refine ⟨fun j hj => ?_, ?_⟩
      · cases j with
        | zero =>
          simp only [runRequests, hstep, List.getElem?_cons_zero]
          rw [decide_eq_false (by omega : ¬ RATE_LIMIT_MAX ≤ c + 0)]
        | succ j' =>
          simp only [runRequests, hstep, List.getElem?_cons_succ]
          rw [ihh.1 j' (by simpa using Nat.lt_of_succ_lt_succ hj)]
          rw [show (decide (RATE_LIMIT_MAX ≤ c + 1 + j'))
              = decide (RATE_LIMIT_MAX ≤ c + (j' + 1)) from decide_eq_decide.mpr (by omega)]
      · simp only [runRequests, hstep]
        rw [ihh.2]
        have : min (c + 1 + rest.length) RATE_LIMIT_MAX
            = min (c + (t :: rest).length) RATE_LIMIT_MAX := by
          simp only [List.length_cons]; omega
        rw [this]

lemma receive_store_eq (store : RateStore) (ip : String) (now : Int)
    (body : ReqBody) (sentAt : String) (f : Nat → Except String Unit) :
    (receive_send_email store ip now body sentAt f).store
      = (is_rate_limited store ip now).2 := by
  unfold receive_send_email
  dsimp only
  repeat' split <;> try rfl

/-! ### Claim theorems: rate limiting -/

/-- C1: starting from a store with no entry for `ip`, a run of requests all
within 60 seconds of the first one allows exactly the first 6 (the flag at
position `j` is `limited iff 6 ≤ j`), leaves the counter capped at
`RATE_LIMIT_MAX` (denials do not increment it, and `window_start` stays at
the first request's time), and any request arriving more than
`RATE_LIMIT_WINDOW` seconds after the stored `window_start` resets the
entry to count 1 and is allowed. -/
theorem rate_limit_fixed_window (ip : String) (t₀ : Int) (times : List Int)
    (hin : ∀ t ∈ times, t - t₀ ≤ RATE_LIMIT_WINDOW) :
    (∀ j, j < times.length + 1 →
        (runRequests [] ip (t₀ :: times)).1[j]? = some (decide (RATE_LIMIT_MAX ≤ j)))
    ∧ lookupIp (runRequests [] ip (t₀ :: times)).2 ip
        = some ⟨min (times.length + 1) RATE_LIMIT_MAX, t₀⟩
    ∧ (∀ (store : RateStore) (e : RateEntry) (now : Int),
        lookupIp store ip = some e → RATE_LIMIT_WINDOW < now - e.window_start →
        is_rate_limited store ip now = (false, setIp store ip ⟨1, now⟩)) := by
  have hstep : is_rate_limited [] ip t₀ = (false, [(ip, ⟨1, t₀⟩)]) := by
    simp [is_rate_limited, lookupIp, setIp]
  have hlook : lookupIp [(ip, (⟨1, t₀⟩ : RateEntry))] ip = some ⟨1, t₀⟩ := by
    simp [lookupIp]
  have ihh := runRequests_active ip t₀ times [(ip, ⟨1, t₀⟩)] 1 hlook (by decide) hin
  refine ⟨fun j hj => ?_, ?_, fun store e now hl hw =>
    is_rate_limited_expired store ip now e hl hw⟩
  · cases j with
    | zero =>
      simp only [runRequests, hstep, List.getElem?_cons_zero]
      rw [decide_eq_false (by decide : ¬ RATE_LIMIT_MAX ≤ 0)]
    | succ j' =>
      simp only [runRequests, hstep, List.getElem?_cons_succ]
      rw [ihh.1 j' (by omega)]
      rw [show (decide (RATE_LIMIT_MAX ≤ 1 + j'))
          = decide (RATE_LIMIT_MAX ≤ j' + 1) from decide_eq_decide.mpr (by omega)]
  · simp only [runRequests, hstep]
    rw [ihh.2]
    rw [Nat.add_comm 1 times.length]

theorem rate_limit_fixed_window_witness :
    (∀ t ∈ ([110, 120] : List Int), t - 100 ≤ RATE_LIMIT_WINDOW)
    ∧ (runRequests [] "1.2.3.4" [100, 110, 120]).1[2]? = some false := by
  refine ⟨by decide, ?_⟩
  have h := rate_limit_fixed_window "1.2.3.4" 100 [110, 120] (by decide)
  simpa using h.1 2 (by decide)

/-- C9: the rate-store invariant — every stored entry has a count between 1
and `RATE_LIMIT_MAX` — is preserved by every `is_rate_limited`
check-and-record call and by every `_cleanup_rate_store` sweep pass. -/
theorem rate_store_invariant (s : RateStore) (ip : String) (now : Int) (h : RateInv s) :
    RateInv (is_rate_limited s ip now).2 ∧ RateInv (cleanup_rate_store s now) := by
  constructor
  · rcases hl : lookupIp s ip with _ | e
    · rw [is_rate_limited_absent s ip now hl]
      intro q hq
      rcases mem_setIp s ip ⟨1, now⟩ q hq with hmem | heq
      · exact h q hmem
      · rw [heq]; exact ⟨le_refl 1, (by decide : (1 : Nat) ≤ RATE_LIMIT_MAX)⟩
    · by_cases hw : RATE_LIMIT_WINDOW < now - e.window_start
      · rw [is_rate_limited_expired s ip now e hl hw]
        intro q hq
        rcases mem_setIp s ip ⟨1, now⟩ q hq with hmem | heq
        · exact h q hmem
        · rw [heq]; exact ⟨le_refl 1, (by decide : (1 : Nat) ≤ RATE_LIMIT_MAX)⟩
      · by_cases hc : RATE_LIMIT_MAX ≤ e.count
        · rw [is_rate_limited_at_limit s ip now e hl hw hc]
          exact h
        · rw [is_rate_limited_incr s ip now e hl hw (Nat.lt_of_not_le hc)]
          intro q hq
          rcases mem_setIp s ip ⟨e.count + 1, e.window_start⟩ q hq with hmem | heq
          · exact h q hmem
          · rw [heq]
            exact ⟨Nat.succ_le_succ (Nat.zero_le _),
              Nat.succ_le_of_lt (Nat.lt_of_not_le hc)⟩
  · intro q hq
    exact h q (List.mem_filter.mp hq).1

theorem rate_store_invariant_witness :
    RateInv ((is_rate_limited [("a", ⟨3, 10⟩)] "a" 20).2)
    ∧ RateInv (cleanup_rate_store [("a", ⟨3, 10⟩)] 20) :=
  rate_store_invariant [("a", ⟨3, 10⟩)] "a" 20 (by unfold RateInv; decide)

/-- C10: every request to the handler consumes rate-limit quota up front:
whatever the request body and whatever the final response, when the IP is
under the limit the stored count after handling is the previous count plus
one, and a new or expired window is (re)initialized to count 1 at `now`. -/
theorem quota_consumed_first (store : RateStore) (ip : String) (now : Int)
    (body : ReqBody) (sentAt : String) (f : Nat → Except String Unit) :
    (lookupIp store ip = none →
       lookupIp (receive_send_email store ip now body sentAt f).store ip = some ⟨1, now⟩)
    ∧ (∀ e : RateEntry, lookupIp store ip = some e →
         RATE_LIMIT_WINDOW < now - e.window_start →
         lookupIp (receive_send_email store ip now body sentAt f).store ip = some ⟨1, now⟩)
    ∧ (∀ e : RateEntry, lookupIp store ip = some e →
         now - e.window_start ≤ RATE_LIMIT_WINDOW → e.count < RATE_LIMIT_MAX →
         lookupIp (receive_send_email store ip now body sentAt f).store ip
           = some ⟨e.count + 1, e.window_start⟩) := by
  refine ⟨fun h => ?_, fun e h hw => ?_, fun e h hw hc => ?_⟩
  · rw [receive_store_eq, is_rate_limited_absent store ip now h]
    exact lookupIp_setIp_self store ip _
  · rw [receive_store_eq, is_rate_limited_expired store ip now e h hw]
    exact lookupIp_setIp_self store ip _
  · rw [receive_store_eq, is_rate_limited_incr store ip now e h (not_lt.mpr hw) hc]
    exact lookupIp_setIp_self store ip _

theorem quota_consumed_first_witness :
    lookupIp (receive_send_email [] "7.7.7.7" 5 (ReqBody.jsonBody none) "T"
        (fun _ => Except.ok ())).store "7.7.7.7" = some ⟨1, 5⟩ :=
  (quota_consumed_first [] "7.7.7.7" 5 (ReqBody.jsonBody none) "T"
      (fun _ => Except.ok ())).1 rfl


/-! ### Claim theorems: handler validation and attachments -/

/-- C5: when the rate limiter admits the request and the body parses, a
payload whose name, email, or message is empty after trimming makes the
handler answer the 422 missing-required-fields error, and the dispatcher
is never invoked for that request. -/
theorem missing_fields_no_send (store : RateStore) (ip : String) (now : Int)
    (body : ReqBody) (sentAt : String) (f : Nat → Except String Unit)
    (p : Payload) (atts : List (String × List Nat))
    (hrl : (is_rate_limited store ip now).1 = false)
    (hp : parse_request body = .ok (p, atts))
    (hmiss : safe_text p.name = "" ∨ safe_text p.email = "" ∨ safe_text p.message = "") :
    (receive_send_email store ip now body sentAt f).response = .missingFields
    ∧ (receive_send_email store ip now body sentAt f).dispatched = none := by
  rcases hmiss with h | h | h <;>
    constructor <;> simp [receive_send_email, hrl, hp, h]

theorem missing_fields_no_send_witness :
    (receive_send_email [] "8.8.8.8" 0
        (ReqBody.jsonBody (some ⟨some "", some "ann@x.com", none, some "Hi", none⟩))
        "T" (fun _ => Except.ok ())).response = Response.missingFields :=
  (missing_fields_no_send [] "8.8.8.8" 0
      (ReqBody.jsonBody (some ⟨some "", some "ann@x.com", none, some "Hi", none⟩))
      "T" (fun _ => Except.ok ())
      ⟨some "", some "ann@x.com", none, some "Hi", none⟩ [] (by decide) rfl
      (Or.inl (by decide))).1

/-- C3: attachment validation rejects any filename whose extension is not
allow-listed — whatever the size, since the extension check runs first —
accepts every allow-listed file of at most `MAX_ATTACHMENT_SIZE` bytes
(8 MiB), and rejects an allow-listed file of exactly 8 MiB + 1 bytes as
too large. -/
theorem attachment_validation (fname : String) (size : Nat) :
    (allowed_filename fname = false → check_file fname size = .typeNotAllowed)
    ∧ (allowed_filename fname = true → size ≤ MAX_ATTACHMENT_SIZE →
        check_file fname size = .ok)
    ∧ (allowed_filename fname = true →
        check_file fname (MAX_ATTACHMENT_SIZE + 1) = .tooLarge) := by
  refine ⟨fun h => by simp [check_file, h], fun h hs => ?_, fun h => ?_⟩
  · have hlt : ¬ MAX_ATTACHMENT_SIZE < size := Nat.not_lt.mpr hs
    simp [check_file, h, hlt]
  · simp [check_file, h, Nat.lt_succ_self]

theorem attachment_validation_witness :
    check_file "a.png" 5 = FileCheck.ok
    ∧ check_file "a.exe" 9000000 = FileCheck.typeNotAllowed :=
  ⟨(attachment_validation "a.png" 5).2.1 (by decide) (by decide),
   (attachment_validation "a.exe" 9000000).1 (by decide)⟩

/-! ### Claim theorems: email composition -/

/-- C2 counterexample: a submission with no `meta` value supplied still
produces a `Meta:` section, because the handler passes the `meta` key
explicitly (line 319) with value `None`; the composed body for a plain
JSON submission without meta contains the `Meta:` line (serializing
`null`), so the body does not omit the section. -/
theorem meta_section_counterexample :
    (handler_email_data "Ann" "ann@x.com" "GOP3 Fan Message" "Hi" none).meta
      = some Json.null
    ∧ "Meta:" ∈ build_email_lines
        (handler_email_data "Ann" "ann@x.com" "GOP3 Fan Message" "Hi" none)
        "2024-01-01T00:00:00" := by
  exact ⟨rfl, by decide⟩

/-- C2 amended: `build_email_body` omits the Meta section exactly when the
`meta` key is absent from its input dict — with a supplied value `v` the
composed lines are the meta-less lines followed by `Meta:` and the
serialization of `v` — but the handler always supplies the key, passing
`Json.null` when the submission carried no meta value. -/
theorem meta_section_amended (d : EmailData) (sentAt : String) (v : Json) :
    build_email_lines { d with meta := some v } sentAt
      = build_email_lines { d with meta := none } sentAt ++ ["Meta:", json_dumps v]
    ∧ build_email_body { d with meta := some v } sentAt
      = joinLines (build_email_lines { d with meta := none } sentAt ++ ["Meta:", json_dumps v])
    ∧ (∀ (name email subject message : String) (meta : Option Json),
        (handler_email_data name email subject message meta).meta
          = some (meta.getD Json.null)) := by
  have h1 : build_email_lines { d with meta := some v } sentAt
      = build_email_lines { d with meta := none } sentAt ++ ["Meta:", json_dumps v] := by
    simp [build_email_lines]
  exact ⟨h1, by rw [build_email_body, h1], fun _ _ _ _ _ => rfl⟩

/-- C8 counterexample: a subject consisting only of whitespace trims to the
empty string but is not replaced by the default — the handler dispatches
with an empty subject slot instead of "GOP3 Fan Message". -/
theorem subject_whitespace_counterexample :
    py_strip " " = ""
    ∧ ((receive_send_email [] "9.9.9.9" 0
          (ReqBody.jsonBody (some ⟨some "Ann", some "ann@x.com", some " ", some "Hi", none⟩))
          "T" (fun _ => Except.ok ())).dispatched.map DispatchRecord.subject)
        = some "[GOP3 Fan]  (from Ann)"
    ∧ ("[GOP3 Fan]  (from Ann)" : String)
        ≠ "[GOP3 Fan] GOP3 Fan Message (from Ann)" := by
  refine ⟨by decide, by decide, by decide⟩

/-- C8 amended: an absent or empty subject is replaced by the default
"GOP3 Fan Message"; any other subject — including a whitespace-only one —
is used trimmed, so a whitespace-only subject yields an empty subject
rather than the default. -/
theorem subject_default_policy :
    handler_subject none = "GOP3 Fan Message"
    ∧ handler_subject (some "") = "GOP3 Fan Message"
    ∧ (∀ s : String, s ≠ "" → handler_subject (some s) = py_strip s) := by
  refine ⟨by decide, by decide, fun s hs => ?_⟩
  simp [handler_subject, subject_or_default, safe_text, hs]

theorem subject_default_policy_witness :
    handler_subject (some " ") = py_strip " " :=
  subject_default_policy.2.2 " " (by decide)

/-! ### Claim theorems: the SMTP dispatcher -/

lemma send_email_loop_attempts_le (f : Nat → Except String Unit) :
    ∀ (r a : Nat) (l : Option String) (s : List Nat),
      (send_email_loop f r a l s).attempts ≤ a + r := by
  intro r
  induction r with
  | zero => intro a l s; simp [send_email_loop]
  | succ r ih =>
    intro a l s
    simp only [send_email_loop]
    cases hf : f (a + 1) with
    | ok u => show a + 1 ≤ a + (r + 1); omega
    | error e => exact le_trans (ih (a + 1) (some e) (s ++ [2 ^ a])) (by omega)

lemma send_email_loop_error_step (f : Nat → Except String Unit)
    (r a : Nat) (l : Option String) (s : List Nat) (e : String)
    (he : f (a + 1) = Except.error e) :
    send_email_loop f (r + 1) a l s
      = send_email_loop f r (a + 1) (some e) (s ++ [2 ^ a]) := by
  simp only [send_email_loop, he]

lemma send_email_loop_all_fail (f : Nat → Except String Unit) :
    ∀ (r a : Nat) (l : Option String) (s : List Nat),
      1 ≤ r →
      (∀ i, a < i → i ≤ a + r → ∃ e, f i = Except.error e) →
      ∃ e, f (a + r) = Except.error e ∧
        send_email_loop f r a l s
          = ⟨SendResult.failed (some e),
             s ++ (List.range r).map (fun i => 2 ^ (a + i)), a + r, 0⟩ := by
  intro r
  induction r with
  | zero => intro a l s h hfail; exact absurd h (by decide)
  | succ r ih =>
    intro a l s _ hfail
    obtain ⟨e1, he1⟩ := hfail (a + 1) (by omega) (by omega)
    cases r with
    | zero =>
      refine ⟨e1, by simpa using he1, ?_⟩
      rw [send_email_loop_error_step f 0 a l s e1 he1]
      simp [send_email_loop, List.range_succ]
    | succ r2 =>
      obtain ⟨e, he, hrun⟩ := ih (a + 1) (some e1) (s ++ [2 ^ a]) (by omega)
          (fun i h1 h2 => hfail i (by omega) (by omega))
      have hidx : a + 1 + (r2 + 1) = a + (r2 + 1 + 1) := by omega
      refine ⟨e, by rw [← hidx]; exact he, ?_⟩
      have hfun : ((fun i => 2 ^ (a + i)) ∘ Nat.succ) = (fun i => 2 ^ (a + 1 + i)) := by
        funext i
        simp only [Function.comp_apply]
        congr 1
        omega
      have hmap : (List.range (r2 + 1 + 1)).map (fun i => 2 ^ (a + i))
          = 2 ^ a :: (List.range (r2 + 1)).map (fun i => 2 ^ (a + 1 + i)) := by
        rw [List.range_succ_eq_map, List.map_cons, List.map_map, hfun]
        simp
      rw [send_email_loop_error_step f (r2 + 1) a l s e1 he1, hrun, hmap, hidx]
      simp

/-- C4 counterexample: when all three attempts fail, the code performs
three sleeps (1s, 2s, 4s) for three attempts — the last sleep follows the
final failed attempt, with no next attempt after it — refuting the claim
that a delay occurs only before a next attempt (which would allow at most
attempts − 1 sleeps). -/
theorem send_email_sleeps_after_final_failure :
    (send_email (fun i => Except.error (toString i)) 3).sleeps = [1, 2, 4]
    ∧ (send_email (fun i => Except.error (toString i)) 3).attempts = 3
    ∧ ¬ ((send_email (fun i => Except.error (toString i)) 3).sleeps.length
        ≤ (send_email (fun i => Except.error (toString i)) 3).attempts - 1) := by
  decide

/-- C4 amended: the dispatcher makes at most `max_attempts` attempts; after
every failed attempt — including the final one, just before the failure is
raised — it waits `2 ^ (attempt − 1)` seconds; and after `max_attempts`
consecutive failures it fails, surfacing the last underlying error as the
cause, with no message transmitted. -/
theorem send_email_retry_policy (f : Nat → Except String Unit) (m : Nat) :
    (send_email f m).attempts ≤ m
    ∧ (1 ≤ m →
        (∀ i, 1 ≤ i → i ≤ m → ∃ e, f i = Except.error e) →
        ∃ e, f m = Except.error e ∧
          send_email f m
            = ⟨SendResult.failed (some e), (List.range m).map (fun i => 2 ^ i), m, 0⟩) := by
  constructor
  · simpa using send_email_loop_attempts_le f m 0 none []
  · intro hm hfail
    obtain ⟨e, he, hrun⟩ := send_email_loop_all_fail f m 0 none [] hm
        (fun i h1 h2 => hfail i (by omega) (by omega))
    refine ⟨e, by simpa using he, ?_⟩
    simpa [send_email] using hrun

theorem send_email_retry_policy_witness :
    send_email (fun i => Except.error ("E" ++ toString i)) 3
      = ⟨SendResult.failed (some "E3"), [1, 2, 4], 3, 0⟩ := by
  obtain ⟨e, he, hrun⟩ :=
    (send_email_retry_policy (fun i => Except.error ("E" ++ toString i)) 3).2
      (by omega) (fun i h1 h2 => ⟨"E" ++ toString i, rfl⟩)
  have he2 : Except.error ("E" ++ toString 3) = (Except.error e : Except String Unit) := he
  injection he2 with h
  rw [hrun, ← h]
  decide

/-- C6: if the first two attempts fail and the third succeeds, dispatch
succeeds overall, exactly two backoff delays occur (1 second then
2 seconds), and the message is transmitted exactly once. -/
theorem send_email_third_attempt_success :
    send_email (fun i => if i ≤ 2 then Except.error (toString i) else Except.ok ()) 3
      = ⟨SendResult.ok, [1, 2], 3, 1⟩ := by
  decide

/-! ### Claim theorems: MIME inference -/

/-- C7: the MIME guess evaluated at the failing input `photo.png`: the
source's subtype check against the corrupted literal (see
`png_bug_suffix`) never matches, so a `.png` file is attached as
`image/gif`, not the intended `image/png`; `.jpg` and `.pdf` files show
the surrounding mapping works as documented. -/
theorem mime_png_inference_bug :
    mime_for "photo.png" = ("image", "gif")
    ∧ mime_for "photo.png" ≠ ("image", "png")
    ∧ mime_for "photo.jpg" = ("image", "jpeg")
    ∧ mime_for "photo.pdf" = ("application", "pdf")
    ∧ mime_for "notes.md" = ("application", "octet-stream") := by
  decide

end GopServer
